import Mathlib

/-
Verification of the password-analysis core of pypasstool.

The Lean definitions below are a shallow embedding of the Python sources:
  - modules/passutils.py   (character class tables and membership predicates)
  - pypasstool/checkpass.py (combination estimator, break-time, tiering, advice)
  - modules/utils.py        (duration formatting, secs_to_time)
Python strings become List Char, Python sets of single characters become
List Char (only membership matters), Python ints become Nat/Int, Python
floats become Rat, and the one fallible operation (float division, which
raises ZeroDivisionError on a zero divisor) returns Option.
-/

namespace PyPassTool

/-- Highly compatible symbols (passutils.HIGH_COMP_SYMB). -/
def HIGH_COMP_SYMB : List Char :=
  ['!', '#', '$', '%', '&', '*', '@', '^']

/-- Moderately compatible symbols (passutils.MED_COMP_SYMB). -/
def MED_COMP_SYMB : List Char :=
  ['(', ')', '-', '.', '_']

/-- Least compatible symbols (passutils.LOW_COMP_SYMB); the double quote,
apostrophe, backquote and the two braces are written by code point
(34, 39, 96, 123, 125). -/
def LOW_COMP_SYMB : List Char :=
  [Char.ofNat 34, Char.ofNat 39, '+', ',', '/', ':', ';', '<', '=', '>', '?',
   '[', '\\', ']', Char.ofNat 96, Char.ofNat 123, '|', Char.ofNat 125, '~']

/-- Digit characters (passutils.DIGITS). -/
def DIGITS : List Char :=
  ['0', '1', '2', '3', '4', '5', '6', '7', '8', '9']

/-- Lowercase letters (passutils.LOWER). -/
def LOWER : List Char :=
  ['a', 'b', 'c', 'd', 'e', 'f', 'g', 'h', 'i', 'j', 'k', 'l', 'm',
   'n', 'o', 'p', 'q', 'r', 's', 't', 'u', 'v', 'w', 'x', 'y', 'z']

/-- Uppercase letters (passutils.UPPER). -/
def UPPER : List Char :=
  ['A', 'B', 'C', 'D', 'E', 'F', 'G', 'H', 'I', 'J', 'K', 'L', 'M',
   'N', 'O', 'P', 'Q', 'R', 'S', 'T', 'U', 'V', 'W', 'X', 'Y', 'Z']

/-- Union of all characters a password may contain (passutils.VALID_PASS_CHARS),
built in the order of the source expression. -/
def VALID_PASS_CHARS : List Char :=
  LOW_COMP_SYMB ++ MED_COMP_SYMB ++ HIGH_COMP_SYMB ++ DIGITS ++ LOWER ++ UPPER

/-- passutils.password_has_chartype: true when at least one character of the
password belongs to the given character set. -/
def password_has_chartype (password : List Char) (char_list : List Char) : Bool :=
  password.any (fun c => char_list.contains c)

/-- passutils.is_password_vaild (sic): true when every character of the
password belongs to VALID_PASS_CHARS. -/
def is_password_vaild (password : List Char) : Bool :=
  password.all (fun c => VALID_PASS_CHARS.contains c)

/-- passutils.PasswordInfo: the per-analysis record of password properties.
Defaults mirror the Python constructor. -/
structure PasswordInfo where
  length : ℕ := 0
  digits : Bool := false
  lower : Bool := false
  upper : Bool := false
  highcompsymb : Bool := false
  medcompsymb : Bool := false
  lowcompsymb : Bool := false
  security : ℕ := 0
deriving DecidableEq, Repr

/-- checkpass.calc_password_combinations: sum of the per-slot alphabet
weights (cumulative for the symbol tiers), raised to the password length. -/
def calc_password_combinations (passinfo : PasswordInfo) : ℕ :=
  let charsets : List ℕ :=
    [if passinfo.digits then DIGITS.length else 0,
     if passinfo.lower then LOWER.length else 0,
     if passinfo.upper then UPPER.length else 0,
     if passinfo.highcompsymb then HIGH_COMP_SYMB.length else 0,
     if passinfo.medcompsymb then HIGH_COMP_SYMB.length + MED_COMP_SYMB.length else 0,
     if passinfo.lowcompsymb then
       HIGH_COMP_SYMB.length + MED_COMP_SYMB.length + LOW_COMP_SYMB.length
     else 0]
  charsets.sum ^ passinfo.length

/-- checkpass.get_bruteforce_time: plain division of the combination count by
the hashrate; Python float division raises ZeroDivisionError on a zero
divisor, modelled as none. There is no guard for a negative hashrate. -/
def get_bruteforce_time (pass_combinations : ℕ) (hashrate : ℚ) : Option ℚ :=
  if hashrate = 0 then none else some ((pass_combinations : ℚ) / hashrate)

/-- checkpass.set_password_security: the tier written into passinfo.security,
as a function of the estimated break time.  The Python function reads the
module constant PASSWORD_SECURITY_LIMITS; the limit quadruple is an explicit
argument here. -/
def set_password_security (limits : ℚ × ℚ × ℚ × ℚ) (bruteforce_time : ℚ) : ℕ :=
  if 0 ≤ bruteforce_time ∧ bruteforce_time ≤ limits.1 then 0
  else if limits.1 < bruteforce_time ∧ bruteforce_time ≤ limits.2.1 then 1
  else if limits.2.1 < bruteforce_time ∧ bruteforce_time ≤ limits.2.2.1 then 2
  else if limits.2.2.1 < bruteforce_time ∧ bruteforce_time ≤ limits.2.2.2 then 3
  else 4

/-- Modelled from the spec: the module utils/constants.py that defines
PASSWORD_SECURITY_LIMITS is not among the sources; the spec gives the
ascending threshold quadruple [1, 3600, 86400, 31536000]. -/
def PASSWORD_SECURITY_LIMITS : ℚ × ℚ × ℚ × ℚ :=
  (1, 3600, 86400, 31536000)

/-- checkpass.password_improvements: the ordered advice list. -/
def password_improvements (passinfo : PasswordInfo) : List String :=
  if passinfo.security = 4 then
    ["Tu contraseña es muy segura. ¡Buen trabajo!"]
  else
    (if passinfo.security = 0 then
      ["Tu contraseña es extremadamente débil a ataques de fuerza bruta. Considera cambiarla de inmediato."]
    else if passinfo.security = 1 then
      ["Tu contraseña es muy débil a ataques de fuerza bruta. Se recomienda mejorarla para mayor seguridad."]
    else if passinfo.security = 2 then
      ["Tu contraseña es débil a ataques de fuerza bruta. debería mejorarse."]
    else if passinfo.security = 3 then
      ["Tu contraseña es fuerte a ataques de fuerza bruta, pero puedes hacerla más segura."]
    else []) ++
    (if passinfo.length < 12 then
      ["Aumenta la longitud de tu contraseña. Se recomienda al menos 12 caracteres."]
    else []) ++
    (if !passinfo.digits then
      ["Incluye números en tu contraseña para mayor variedad."]
    else []) ++
    (if !passinfo.lower then
      ["Incluye letras minúsculas en tu contraseña."]
    else []) ++
    (if !passinfo.upper then
      ["Incluye letras mayúsculas en tu contraseña."]
    else []) ++
    (if !(passinfo.highcompsymb || passinfo.medcompsymb || passinfo.lowcompsymb) then
      ["Agrega símbolos (como @, #, $, etc.) para aumentar la complejidad."]
    else [])

/-- Python int() applied to a float: truncation toward zero. -/
def pyTrunc (q : ℚ) : ℤ :=
  if q < 0 then Int.ceil q else Int.floor q

/-- Python floor division a // b on floats: the floor of the quotient,
returned as a float. -/
def pyFloorDiv (a b : ℚ) : ℚ :=
  ((Int.floor (a / b) : ℤ) : ℚ)

/-- Time unit constant of utils.secs_to_time. -/
def SECOND : ℚ := 1

/-- Time unit constant of utils.secs_to_time. -/
def MINUTE : ℚ := 60 * SECOND

/-- Time unit constant of utils.secs_to_time. -/
def HOUR : ℚ := 60 * MINUTE

/-- Time unit constant of utils.secs_to_time. -/
def DAY : ℚ := 24 * HOUR

/-- Time unit constant of utils.secs_to_time. -/
def WEEK : ℚ := 7 * DAY

/-- Time unit constant of utils.secs_to_time (30-day month approximation). -/
def MONTH : ℚ := 30 * DAY

/-- Time unit constant of utils.secs_to_time (365-day year approximation). -/
def YEAR : ℚ := 365 * DAY

/-- utils.secs_to_time: render a duration in seconds as a Spanish phrase. -/
def secs_to_time (seconds : ℚ) : String :=
  if seconds < SECOND then "Instantáneo"
  else if seconds < MINUTE then
    let duration := pyTrunc seconds
    let unit := if duration = 1 then "segundo" else "segundos"
    toString duration ++ " " ++ unit
  else if seconds < HOUR then
    let duration := pyTrunc (pyFloorDiv seconds MINUTE)
    let unit := if duration = 1 then "minuto" else "minutos"
    toString duration ++ " " ++ unit
  else if seconds < DAY then
    let duration := pyTrunc (pyFloorDiv seconds HOUR)
    let unit := if duration = 1 then "hora" else "horas"
    toString duration ++ " " ++ unit
  else if seconds < MONTH then
    let duration := pyTrunc (pyFloorDiv seconds WEEK)
    let unit := if duration = 1 then "semana" else "semanas"
    toString duration ++ " " ++ unit
  else if seconds < YEAR then
    let duration := pyTrunc (pyFloorDiv seconds MONTH)
    let unit := if duration = 1 then "mes" else "meses"
    toString duration ++ " " ++ unit
  else
    let duration := pyTrunc (pyFloorDiv seconds YEAR)
    let unit := if duration = 1 then "año" else "años"
    toString duration ++ " " ++ unit

/-- Formatting rule stated by the spec: the count N followed by the unit word,
with the singular word exactly when N equals one.  Spec-side definition used
to compare secs_to_time against the spec sentence. -/
def spec_duration_text (n : ℤ) (singular plural : String) : String :=
  toString n ++ " " ++ (if n = 1 then singular else plural)

end PyPassTool

namespace PyPassTool

/-- C1: calc_password_combinations is exactly the sum of the present slot
weights (digits 10, lower 26, upper 26, high symbols 8, medium slot 13,
low slot 32; absent slots contribute 0) raised to the profile length. -/
theorem calc_password_combinations_weights (p : PasswordInfo) :
    calc_password_combinations p =
      ((if p.digits then 10 else 0) + (if p.lower then 26 else 0) +
       (if p.upper then 26 else 0) + (if p.highcompsymb then 8 else 0) +
       (if p.medcompsymb then 13 else 0) + (if p.lowcompsymb then 32 else 0))
        ^ p.length := by
  rcases p with ⟨len, d, lo, u, hs, ms, ls, sec⟩
  cases d <;> cases lo <;> cases u <;> cases hs <;> cases ms <;> cases ls <;>
    simp [calc_password_combinations, DIGITS, LOWER, UPPER, HIGH_COMP_SYMB,
      MED_COMP_SYMB, LOW_COMP_SYMB]

/-- C6: every profile of length 0, in particular the all-false profile with
weight sum 0, yields exactly 1 combination (the 0 ^ 0 = 1 convention). -/
theorem calc_password_combinations_length_zero (p : PasswordInfo)
    (h : p.length = 0) : calc_password_combinations p = 1 := by
  simp [calc_password_combinations, h]

/-- Witness for C6 at the all-false, length-0 profile. -/
theorem calc_password_combinations_length_zero_witness :
    calc_password_combinations
      { length := 0, digits := false, lower := false, upper := false,
        highcompsymb := false, medcompsymb := false, lowcompsymb := false,
        security := 0 } = 1 :=
  calc_password_combinations_length_zero _ rfl

/-- C2: for every ascending threshold quadruple and every non-negative break
time, set_password_security assigns exactly one tier 0..4, each tier holding
exactly on its half-open band, with no gaps or overlaps. -/
theorem set_password_security_partition
    (T0 T1 T2 T3 : ℚ) (h01 : T0 < T1) (h12 : T1 < T2) (h23 : T2 < T3)
    (s : ℚ) (hs : 0 ≤ s) :
    (set_password_security (T0, T1, T2, T3) s = 0 ↔ s ≤ T0) ∧
    (set_password_security (T0, T1, T2, T3) s = 1 ↔ T0 < s ∧ s ≤ T1) ∧
    (set_password_security (T0, T1, T2, T3) s = 2 ↔ T1 < s ∧ s ≤ T2) ∧
    (set_password_security (T0, T1, T2, T3) s = 3 ↔ T2 < s ∧ s ≤ T3) ∧
    (set_password_security (T0, T1, T2, T3) s = 4 ↔ T3 < s) := by
  have hsps : set_password_security (T0, T1, T2, T3) s =
      if 0 ≤ s ∧ s ≤ T0 then 0 else if T0 < s ∧ s ≤ T1 then 1
      else if T1 < s ∧ s ≤ T2 then 2 else if T2 < s ∧ s ≤ T3 then 3 else 4 :=
    rfl
  rw [hsps]
  rcases le_or_lt s T0 with c0 | c0
  · rw [if_pos ⟨hs, c0⟩]
    refine ⟨⟨fun _ => c0, fun _ => rfl⟩, ?_, ?_, ?_, ?_⟩ <;>
      constructor <;> intro h <;>
      first
        | (exfalso; rcases h with ⟨ha, hb⟩; linarith)
        | (exfalso; linarith)
  · rcases le_or_lt s T1 with c1 | c1
    · rw [if_neg (by rintro ⟨ha, hb⟩; linarith), if_pos ⟨c0, c1⟩]
      refine ⟨?_, ⟨fun _ => ⟨c0, c1⟩, fun _ => rfl⟩, ?_, ?_, ?_⟩ <;>
        constructor <;> intro h <;>
        first
          | (exfalso; rcases h with ⟨ha, hb⟩; linarith)
          | (exfalso; linarith)
    · rcases le_or_lt s T2 with c2 | c2
      · rw [if_neg (by rintro ⟨ha, hb⟩; linarith),
          if_neg (by rintro ⟨ha, hb⟩; linarith), if_pos ⟨c1, c2⟩]
        refine ⟨?_, ?_, ⟨fun _ => ⟨c1, c2⟩, fun _ => rfl⟩, ?_, ?_⟩ <;>
          constructor <;> intro h <;>
          first
            | (exfalso; rcases h with ⟨ha, hb⟩; linarith)
            | (exfalso; linarith)
      · rcases le_or_lt s T3 with c3 | c3
        · rw [if_neg (by rintro ⟨ha, hb⟩; linarith),
            if_neg (by rintro ⟨ha, hb⟩; linarith),
            if_neg (by rintro ⟨ha, hb⟩; linarith), if_pos ⟨c2, c3⟩]
          refine ⟨?_, ?_, ?_, ⟨fun _ => ⟨c2, c3⟩, fun _ => rfl⟩, ?_⟩ <;>
            constructor <;> intro h <;>
            first
              | (exfalso; rcases h with ⟨ha, hb⟩; linarith)
              | (exfalso; linarith)
        · rw [if_neg (by rintro ⟨ha, hb⟩; linarith),
            if_neg (by rintro ⟨ha, hb⟩; linarith),
            if_neg (by rintro ⟨ha, hb⟩; linarith),
            if_neg (by rintro ⟨ha, hb⟩; linarith)]
          refine ⟨?_, ?_, ?_, ?_, ⟨fun _ => c3, fun _ => rfl⟩⟩ <;>
            constructor <;> intro h <;>
            first
              | (exfalso; rcases h with ⟨ha, hb⟩; linarith)
              | (exfalso; linarith)

/-- Witness for C2: with the spec thresholds (1, 3600, 86400, 31536000),
a break time of 0.5 seconds is tier 0 and 31536001 seconds is tier 4. -/
theorem set_password_security_partition_witness :
    set_password_security (1, 3600, 86400, 31536000) (1 / 2) = 0 ∧
    set_password_security (1, 3600, 86400, 31536000) 31536001 = 4 := by
  constructor
  · exact (set_password_security_partition 1 3600 86400 31536000
      (by norm_num) (by norm_num) (by norm_num) (1 / 2) (by norm_num)).1.mpr
      (by norm_num)
  · exact (set_password_security_partition 1 3600 86400 31536000
      (by norm_num) (by norm_num) (by norm_num) 31536001
      (by norm_num)).2.2.2.2.mpr (by norm_num)

/-- C10: a strictly negative break time falls through every guarded branch of
set_password_security (the tier-0 branch demands a non-negative time and,
with the spec limits, every later lower bound is positive), so the final
else assigns tier 4, the strongest tier. -/
theorem set_password_security_negative_time (bt : ℚ) (h : bt < 0) :
    set_password_security PASSWORD_SECURITY_LIMITS bt = 4 := by
  unfold set_password_security PASSWORD_SECURITY_LIMITS
  split_ifs with h1 h2 h3 h4 <;> first
    | rfl
    | (exfalso; rcases h1 with ⟨ha, hb⟩; linarith)
    | (exfalso; rcases h2 with ⟨ha, hb⟩; norm_num at ha; linarith)
    | (exfalso; rcases h3 with ⟨ha, hb⟩; norm_num at ha; linarith)
    | (exfalso; rcases h4 with ⟨ha, hb⟩; norm_num at ha; linarith)

/-- Witness for C10 at break time -1. -/
theorem set_password_security_negative_time_witness :
    set_password_security PASSWORD_SECURITY_LIMITS (-1) = 4 :=
  set_password_security_negative_time (-1) (by norm_num)

/-- Helper: a slot weight guarded by a flag never decreases when the flag
goes from false to true. -/
theorem if_flag_le (a b : Bool) (w : ℕ) (h : a = true → b = true) :
    (if a then w else 0) ≤ (if b then w else 0) := by
  cases a <;> cases b <;> simp_all

/-- C5: calc_password_combinations is monotone non-decreasing in the length
for every profile with at least one present category, and, at a fixed
length, monotone non-decreasing as the set of present categories grows. -/
theorem calc_password_combinations_monotone :
    (∀ (p : PasswordInfo) (l₁ l₂ : ℕ),
      (p.digits = true ∨ p.lower = true ∨ p.upper = true ∨
       p.highcompsymb = true ∨ p.medcompsymb = true ∨ p.lowcompsymb = true) →
      l₁ ≤ l₂ →
      calc_password_combinations { p with length := l₁ } ≤
        calc_password_combinations { p with length := l₂ }) ∧
    (∀ p q : PasswordInfo, p.length = q.length →
      (p.digits = true → q.digits = true) →
      (p.lower = true → q.lower = true) →
      (p.upper = true → q.upper = true) →
      (p.highcompsymb = true → q.highcompsymb = true) →
      (p.medcompsymb = true → q.medcompsymb = true) →
      (p.lowcompsymb = true → q.lowcompsymb = true) →
      calc_password_combinations p ≤ calc_password_combinations q) := by
  constructor
  · intro p l₁ l₂ hflag hle
    rcases p with ⟨len, d, lo, u, hsym, msym, lsym, sec⟩
    cases d <;> cases lo <;> cases u <;> cases hsym <;> cases msym <;>
      cases lsym <;>
      first
        | (exfalso; revert hflag; simp; done)
        | (norm_num [calc_password_combinations, List.sum_cons, List.sum_nil,
            DIGITS, LOWER, UPPER, HIGH_COMP_SYMB, MED_COMP_SYMB,
            LOW_COMP_SYMB]
           first
             | assumption
             | exact Nat.pow_le_pow_right (by norm_num) hle)
  · intro p q hlen h1 h2 h3 h4 h5 h6
    simp only [calc_password_combinations, List.sum_cons, List.sum_nil, hlen]
    exact Nat.pow_le_pow_left
      (Nat.add_le_add (if_flag_le _ _ _ h1)
        (Nat.add_le_add (if_flag_le _ _ _ h2)
          (Nat.add_le_add (if_flag_le _ _ _ h3)
            (Nat.add_le_add (if_flag_le _ _ _ h4)
              (Nat.add_le_add (if_flag_le _ _ _ h5)
                (Nat.add_le_add (if_flag_le _ _ _ h6) (Nat.le_refl 0))))))) _

/-- Witness for C5: a digits-only profile at lengths 3 and 5, and at length 4
a digits-only profile against a digits-and-lowercase profile. -/
theorem calc_password_combinations_monotone_witness :
    calc_password_combinations { length := 3, digits := true } ≤
      calc_password_combinations { length := 5, digits := true } ∧
    calc_password_combinations { length := 4, digits := true } ≤
      calc_password_combinations { length := 4, digits := true, lower := true } := by
  constructor
  · exact calc_password_combinations_monotone.1
      { length := 0, digits := true } 3 5 (Or.inl rfl) (by norm_num)
  · exact calc_password_combinations_monotone.2
      { length := 4, digits := true }
      { length := 4, digits := true, lower := true } rfl
      (fun _ => rfl) (fun _ => rfl) (fun h => h) (fun h => h) (fun h => h)
      (fun h => h)

/-- C3: password_improvements is deterministic and order-preserving: tier 4
yields exactly the single already-strong message; tiers 0 to 3 yield the
tier message first, then in fixed order the length, digits, lowercase,
uppercase and symbols checks, each appended exactly when its condition
holds; a tier-2, length-6, digits-only profile yields exactly the five
listed messages in order. -/
theorem password_improvements_ordered (p : PasswordInfo) :
    (p.security = 4 → password_improvements p =
      ["Tu contraseña es muy segura. ¡Buen trabajo!"]) ∧
    (p.security = 0 → password_improvements p =
      "Tu contraseña es extremadamente débil a ataques de fuerza bruta. Considera cambiarla de inmediato." ::
        ((if p.length < 12 then ["Aumenta la longitud de tu contraseña. Se recomienda al menos 12 caracteres."] else []) ++
         (if p.digits then [] else ["Incluye números en tu contraseña para mayor variedad."]) ++
         (if p.lower then [] else ["Incluye letras minúsculas en tu contraseña."]) ++
         (if p.upper then [] else ["Incluye letras mayúsculas en tu contraseña."]) ++
         (if p.highcompsymb || p.medcompsymb || p.lowcompsymb then []
          else ["Agrega símbolos (como @, #, $, etc.) para aumentar la complejidad."]))) ∧
    (p.security = 1 → password_improvements p =
      "Tu contraseña es muy débil a ataques de fuerza bruta. Se recomienda mejorarla para mayor seguridad." ::
        ((if p.length < 12 then ["Aumenta la longitud de tu contraseña. Se recomienda al menos 12 caracteres."] else []) ++
         (if p.digits then [] else ["Incluye números en tu contraseña para mayor variedad."]) ++
         (if p.lower then [] else ["Incluye letras minúsculas en tu contraseña."]) ++
         (if p.upper then [] else ["Incluye letras mayúsculas en tu contraseña."]) ++
         (if p.highcompsymb || p.medcompsymb || p.lowcompsymb then []
          else ["Agrega símbolos (como @, #, $, etc.) para aumentar la complejidad."]))) ∧
    (p.security = 2 → password_improvements p =
      "Tu contraseña es débil a ataques de fuerza bruta. debería mejorarse." ::
        ((if p.length < 12 then ["Aumenta la longitud de tu contraseña. Se recomienda al menos 12 caracteres."] else []) ++
         (if p.digits then [] else ["Incluye números en tu contraseña para mayor variedad."]) ++
         (if p.lower then [] else ["Incluye letras minúsculas en tu contraseña."]) ++
         (if p.upper then [] else ["Incluye letras mayúsculas en tu contraseña."]) ++
         (if p.highcompsymb || p.medcompsymb || p.lowcompsymb then []
          else ["Agrega símbolos (como @, #, $, etc.) para aumentar la complejidad."]))) ∧
    (p.security = 3 → password_improvements p =
      "Tu contraseña es fuerte a ataques de fuerza bruta, pero puedes hacerla más segura." ::
        ((if p.length < 12 then ["Aumenta la longitud de tu contraseña. Se recomienda al menos 12 caracteres."] else []) ++
         (if p.digits then [] else ["Incluye números en tu contraseña para mayor variedad."]) ++
         (if p.lower then [] else ["Incluye letras minúsculas en tu contraseña."]) ++
         (if p.upper then [] else ["Incluye letras mayúsculas en tu contraseña."]) ++
         (if p.highcompsymb || p.medcompsymb || p.lowcompsymb then []
          else ["Agrega símbolos (como @, #, $, etc.) para aumentar la complejidad."]))) ∧
    password_improvements
      { length := 6, digits := true, lower := false, upper := false,
        highcompsymb := false, medcompsymb := false, lowcompsymb := false,
        security := 2 } =
      ["Tu contraseña es débil a ataques de fuerza bruta. debería mejorarse.",
       "Aumenta la longitud de tu contraseña. Se recomienda al menos 12 caracteres.",
       "Incluye letras minúsculas en tu contraseña.",
       "Incluye letras mayúsculas en tu contraseña.",
       "Agrega símbolos (como @, #, $, etc.) para aumentar la complejidad."] := by
  rcases p with ⟨len, d, lo, u, hs, ms, ls, sec⟩
  refine ⟨?_, ?_, ?_, ?_, ?_, by rfl⟩ <;>
    intro h <;>
    dsimp only at h ⊢ <;>
    subst h <;>
    cases d <;> cases lo <;> cases u <;> cases hs <;> cases ms <;> cases ls <;>
    simp [password_improvements]

/-- Witness for C3 at the tier-2, length-6, digits-only profile of the claim
and at a tier-4 profile. -/
theorem password_improvements_ordered_witness :
    password_improvements
      { length := 6, digits := true, lower := false, upper := false,
        highcompsymb := false, medcompsymb := false, lowcompsymb := false,
        security := 2 } =
      "Tu contraseña es débil a ataques de fuerza bruta. debería mejorarse." ::
        ((if (6 : ℕ) < 12 then ["Aumenta la longitud de tu contraseña. Se recomienda al menos 12 caracteres."] else []) ++
         (if true then [] else ["Incluye números en tu contraseña para mayor variedad."]) ++
         (if false then [] else ["Incluye letras minúsculas en tu contraseña."]) ++
         (if false then [] else ["Incluye letras mayúsculas en tu contraseña."]) ++
         (if false || false || false then []
          else ["Agrega símbolos (como @, #, $, etc.) para aumentar la complejidad."])) ∧
    password_improvements { security := 4 } =
      ["Tu contraseña es muy segura. ¡Buen trabajo!"] := by
  constructor
  · exact (password_improvements_ordered
      { length := 6, digits := true, lower := false, upper := false,
        highcompsymb := false, medcompsymb := false, lowcompsymb := false,
        security := 2 }).2.2.2.1 rfl
  · exact (password_improvements_ordered { security := 4 }).1 rfl

/-- C7: password_has_chartype is true exactly when some character of the
password belongs to the given set, and is false on the empty password for
every set; characters outside the set never match and the function is total
(no character causes an error). -/
theorem password_has_chartype_spec :
    (∀ password char_list : List Char,
      password_has_chartype password char_list = true ↔
        ∃ c, c ∈ password ∧ c ∈ char_list) ∧
    (∀ char_list : List Char, password_has_chartype [] char_list = false) := by
  constructor
  · intro pw s
    simp [password_has_chartype, List.any_eq_true, List.elem_iff]
  · intro s
    rfl

/-- Witness for C7: the empty password matches no set, and a password with a
digit matches the digit set. -/
theorem password_has_chartype_spec_witness :
    password_has_chartype [] DIGITS = false ∧
    password_has_chartype ['a', '1'] DIGITS = true := by
  constructor
  · exact password_has_chartype_spec.2 DIGITS
  · exact (password_has_chartype_spec.1 ['a', '1'] DIGITS).mpr
      ⟨'1', by decide, by decide⟩

/-- C8: is_password_vaild is true exactly when every character of the
password belongs to the union of the six defined character classes. -/
theorem is_password_vaild_spec (password : List Char) :
    is_password_vaild password = true ↔
      ∀ c ∈ password,
        c ∈ DIGITS ∨ c ∈ LOWER ∨ c ∈ UPPER ∨ c ∈ HIGH_COMP_SYMB ∨
        c ∈ MED_COMP_SYMB ∨ c ∈ LOW_COMP_SYMB := by
  unfold is_password_vaild VALID_PASS_CHARS
  simp only [List.all_eq_true, List.elem_iff, List.mem_append]
  constructor <;> intro h c hc <;> have hcv := h c hc <;> tauto

/-- Witness for C8: a password of defined-class characters is valid, one with
a space (outside every class) is not. -/
theorem is_password_vaild_spec_witness :
    is_password_vaild ['a', '1'] = true ∧
    is_password_vaild ['a', ' '] = false := by
  constructor
  · exact (is_password_vaild_spec ['a', '1']).mpr (by decide)
  · rcases Bool.eq_false_or_eq_true (is_password_vaild ['a', ' ']) with hb | hb
    · exfalso
      have hmem := (is_password_vaild_spec ['a', ' ']).mp hb ' ' (by decide)
      revert hmem
      decide
    · exact hb

/-- C4: get_bruteforce_time has no hashrate guard: with 100 combinations and
hashrate -2 it silently returns the negative time -50, and with hashrate 0
the division fails (Python raises ZeroDivisionError, modelled as none);
neither path surfaces the ConfigurationError the claim requires for a
non-positive hashrate. -/
theorem get_bruteforce_time_no_guard :
    get_bruteforce_time 100 (-2) = some (-50) ∧
    get_bruteforce_time 100 0 = none := by
  constructor
  · norm_num [get_bruteforce_time]
  · norm_num [get_bruteforce_time]

/-- Helper: pyTrunc is the identity on integers. -/
theorem pyTrunc_intCast (n : ℤ) : pyTrunc (n : ℚ) = n := by
  unfold pyTrunc
  split_ifs with h
  · exact Int.ceil_intCast n
  · exact Int.floor_intCast n

/-- Helper: pyTrunc agrees with the floor on non-negative rationals. -/
theorem pyTrunc_of_nonneg (q : ℚ) (h : 0 ≤ q) : pyTrunc q = Int.floor q := by
  unfold pyTrunc
  rw [if_neg (not_lt.mpr h)]

/-- Helper: a count-and-unit phrase contains a space, so it is never the
instant phrase. -/
theorem appended_ne_instant (a b : String) : a ++ " " ++ b ≠ "Instantáneo" := by
  intro h
  have hsp : ' ' ∈ (a ++ " " ++ b).data :=
    List.mem_append.mpr (Or.inl (List.mem_append.mpr (Or.inr (by decide))))
  rw [h] at hsp
  revert hsp
  decide

/-- C9: for every non-negative seconds value, secs_to_time is the instant
phrase exactly when seconds is below 1, and otherwise renders the floor of
seconds divided by the selected unit (seconds below one minute, minutes
below one hour, hours below one day, weeks below one 30-day month, months
below one 365-day year, years beyond), with the singular word exactly when
the count is one. -/
theorem secs_to_time_spec (s : ℚ) (hs : 0 ≤ s) :
    (secs_to_time s = "Instantáneo" ↔ s < 1) ∧
    (1 ≤ s → s < 60 →
      secs_to_time s = spec_duration_text (Int.floor s) "segundo" "segundos") ∧
    (60 ≤ s → s < 3600 →
      secs_to_time s = spec_duration_text (Int.floor (s / 60)) "minuto" "minutos") ∧
    (3600 ≤ s → s < 86400 →
      secs_to_time s = spec_duration_text (Int.floor (s / 3600)) "hora" "horas") ∧
    (86400 ≤ s → s < 2592000 →
      secs_to_time s = spec_duration_text (Int.floor (s / 604800)) "semana" "semanas") ∧
    (2592000 ≤ s → s < 31536000 →
      secs_to_time s = spec_duration_text (Int.floor (s / 2592000)) "mes" "meses") ∧
    (31536000 ≤ s →
      secs_to_time s = spec_duration_text (Int.floor (s / 31536000)) "año" "años") := by
  have hsec : SECOND = 1 := rfl
  have hmin : MINUTE = 60 := by unfold MINUTE SECOND; norm_num
  have hhr : HOUR = 3600 := by unfold HOUR MINUTE SECOND; norm_num
  have hday : DAY = 86400 := by unfold DAY HOUR MINUTE SECOND; norm_num
  have hweek : WEEK = 604800 := by unfold WEEK DAY HOUR MINUTE SECOND; norm_num
  have hmon : MONTH = 2592000 := by unfold MONTH DAY HOUR MINUTE SECOND; norm_num
  have hyear : YEAR = 31536000 := by
    unfold YEAR DAY HOUR MINUTE SECOND; norm_num
  refine ⟨?_, ?_, ?_, ?_, ?_, ?_, ?_⟩
  · constructor
    · intro h
      by_contra hc
      push_neg at hc
      unfold secs_to_time at h
      rw [hsec, hmin, hhr, hday, hmon, hyear] at h
      rw [if_neg (not_lt.mpr hc)] at h
      split_ifs at h <;> exact appended_ne_instant _ _ h
    · intro h
      unfold secs_to_time
      rw [hsec, if_pos h]
  · intro h1 h2
    unfold secs_to_time
    rw [hsec, hmin]
    rw [if_neg (not_lt.mpr h1), if_pos h2, pyTrunc_of_nonneg s hs]
    rfl
  · intro h1 h2
    unfold secs_to_time
    rw [hsec, hmin, hhr]
    rw [if_neg (show ¬ s < 1 by push_neg; linarith),
      if_neg (not_lt.mpr h1), if_pos h2]
    have hdur : pyTrunc (pyFloorDiv s 60) = Int.floor (s / 60) := by
      unfold pyFloorDiv
      exact pyTrunc_intCast _
    rw [hdur]
    rfl
  · intro h1 h2
    unfold secs_to_time
    rw [hsec, hmin, hhr, hday]
    rw [if_neg (show ¬ s < 1 by push_neg; linarith),
      if_neg (show ¬ s < 60 by push_neg; linarith),
      if_neg (not_lt.mpr h1), if_pos h2]
    have hdur : pyTrunc (pyFloorDiv s 3600) = Int.floor (s / 3600) := by
      unfold pyFloorDiv
      exact pyTrunc_intCast _
    rw [hdur]
    rfl
  · intro h1 h2
    unfold secs_to_time
    rw [hsec, hmin, hhr, hday, hweek, hmon]
    rw [if_neg (show ¬ s < 1 by push_neg; linarith),
      if_neg (show ¬ s < 60 by push_neg; linarith),
      if_neg (show ¬ s < 3600 by push_neg; linarith),
      if_neg (not_lt.mpr h1), if_pos h2]
    have hdur : pyTrunc (pyFloorDiv s 604800) = Int.floor (s / 604800) := by
      unfold pyFloorDiv
      exact pyTrunc_intCast _
    rw [hdur]
    rfl
  · intro h1 h2
    unfold secs_to_time
    rw [hsec, hmin, hhr, hday, hmon, hyear]
    rw [if_neg (show ¬ s < 1 by push_neg; linarith),
      if_neg (show ¬ s < 60 by push_neg; linarith),
      if_neg (show ¬ s < 3600 by push_neg; linarith),
      if_neg (show ¬ s < 86400 by push_neg; linarith),
      if_neg (not_lt.mpr h1), if_pos h2]
    have hdur : pyTrunc (pyFloorDiv s 2592000) = Int.floor (s / 2592000) := by
      unfold pyFloorDiv
      exact pyTrunc_intCast _
    rw [hdur]
    rfl
  · intro h1
    unfold secs_to_time
    rw [hsec, hmin, hhr, hday, hmon, hyear]
    rw [if_neg (show ¬ s < 1 by push_neg; linarith),
      if_neg (show ¬ s < 60 by push_neg; linarith),
      if_neg (show ¬ s < 3600 by push_neg; linarith),
      if_neg (show ¬ s < 86400 by push_neg; linarith),
      if_neg (show ¬ s < 2592000 by push_neg; linarith),
      if_neg (not_lt.mpr h1)]
    have hdur : pyTrunc (pyFloorDiv s 31536000) = Int.floor (s / 31536000) := by
      unfold pyFloorDiv
      exact pyTrunc_intCast _
    rw [hdur]
    rfl

/-- Witness for C9: 75 seconds renders as one minute and half a second as
the instant phrase. -/
theorem secs_to_time_spec_witness :
    secs_to_time 75 =
      spec_duration_text (Int.floor ((75 : ℚ) / 60)) "minuto" "minutos" ∧
    secs_to_time (1 / 2) = "Instantáneo" := by
  constructor
  · exact (secs_to_time_spec 75 (by norm_num)).2.2.1 (by norm_num)
      (by norm_num)
  · exact (secs_to_time_spec (1 / 2) (by norm_num)).1.mpr (by norm_num)

end PyPassTool
